import Mathlib

/-!
# Verification of the Resize-Observation Lifecycle & Fault-Containment Layer

Shallow embedding, in Lean 4, of the fault-classification, error-suppression
and observation-lifecycle code of the `material-storybook` repository:

* `src/storybook/src/utils/resizeObserverFix.ts`          (namespace `Rof`)
* `src/storybook/src/utils/universalErrorSuppression.ts`  (namespace `Ues`)
* the "nuclear" fix module (`nuclearResizeObserverFix.ts`) (namespace `Nuc`)
* the simple suppression modules (`part_002` and the first file of
  `part_003`) (namespace `SimpleFix`)

JavaScript strings are embedded as `String` / `List Char`, dynamic JS values
as the inductive `JSVal`, and code that can raise a `TypeError` runs in
`Except String`.  Event dispatch and observer scheduling are modelled as
explicit state-transition functions.
-/

set_option autoImplicit false

/-! ## JavaScript string helpers -/

/-- The embedding of JavaScript `hay.includes(sub)`: `sub` occurs as a
contiguous substring of `hay`. -/
def jsIncludes : List Char → List Char → Bool
  | [], sub => sub.isPrefixOf []
  | c :: t, sub => sub.isPrefixOf (c :: t) || jsIncludes t sub

theorem isPrefixOf_eq_true_iff {α} [BEq α] [LawfulBEq α] :
    ∀ {l₁ l₂ : List α}, l₁.isPrefixOf l₂ = true ↔ l₁ <+: l₂
  | [], _ => by simp
  | _ :: _, [] => by simp
  | a :: l₁, b :: l₂ => by
    have ih := @isPrefixOf_eq_true_iff α _ _ l₁ l₂
    simp [List.isPrefixOf_cons₂, List.cons_prefix_cons, ih]

theorem jsIncludes_eq_true_iff : ∀ {hay sub : List Char},
    jsIncludes hay sub = true ↔ sub <:+: hay
  | [], sub => by
    simp [jsIncludes, isPrefixOf_eq_true_iff]
  | c :: t, sub => by
    simp [jsIncludes, isPrefixOf_eq_true_iff, jsIncludes_eq_true_iff,
      List.infix_cons_iff]

/-- `toLowerCase` on the character list of a string (the messages involved are
ASCII, where `Char.toLower` agrees with JavaScript `String.toLowerCase`). -/
def lowerData (s : String) : List Char :=
  s.data.map Char.toLower

/-! ## Dynamic JavaScript values

`JSVal` covers the values the classifiers are exercised with: `undefined`,
`null`, booleans, strings, and error-like objects with optional `message`,
`stack` and `name` properties.  (Numbers play no role in any claim; an
object stands in for every remaining truthy non-string value.) -/

inductive JSVal where
  | undefined : JSVal
  | null : JSVal
  | bool : Bool → JSVal
  | str : String → JSVal
  /-- An object with `message`, `stack` and `name` properties (a plain
  object or an `Error`); an absent property reads as `undefined`. -/
  | err : JSVal → JSVal → JSVal → JSVal
deriving DecidableEq

namespace JSVal

/-- JavaScript truthiness of the modelled values. -/
def truthy : JSVal → Bool
  | .undefined => false
  | .null => false
  | .bool b => b
  | .str s => !(s == "")
  | .err _ _ _ => true

/-- JavaScript `String(v)` for the modelled values (a plain object converts
to `"[object Object]"`). -/
def jsToString : JSVal → String
  | .undefined => "undefined"
  | .null => "null"
  | .bool b => cond b "true" "false"
  | .str s => s
  | .err _ _ _ => "[object Object]"

/-- Property read `v.message`.  Every classifier reads properties only
behind an `if (!val) return false` guard, so the JavaScript `TypeError` on
`null`/`undefined` property reads is unreachable and the read is total
here; on truthy primitives it yields `undefined`. -/
def message : JSVal → JSVal
  | .err m _ _ => m
  | _ => .undefined

/-- Property read `v.stack` (see `message`). -/
def stack : JSVal → JSVal
  | .err _ st _ => st
  | _ => .undefined

/-- Property read `v.name` (see `message`). -/
def errName : JSVal → JSVal
  | .err _ _ n => n
  | _ => .undefined

end JSVal

/-! ## `resizeObserverFix.ts` (namespace `Rof`) -/

namespace Rof

/-- The `RESIZE_OBSERVER_ERRORS` pattern list of `resizeObserverFix.ts`
(lines 10–24), verbatim. -/
def RESIZE_OBSERVER_ERRORS : List String :=
  [ "ResizeObserver loop completed with undelivered notifications.",
    "ResizeObserver loop completed with undelivered notifications",
    "ResizeObserver loop limit exceeded",
    "ResizeObserver loop exceeded",
    "ResizeObserver: loop limit exceeded",
    "Non-Error exception captured with keys",
    "loop limit exceeded",
    "undelivered notifications",
    "resizeobserver loop",
    "resizeobserver.*loop",
    "loop.*resizeobserver",
    "observer.*loop",
    "observation.*loop" ]

/-- `seekSkip b s`: scanning forward through `s`, is `b` found before any
newline?  This is the tail of matching the regex `a.*b` (without the `s`
flag, `.` in JavaScript does not match a newline). -/
def seekSkip (b : List Char) : List Char → Bool
  | [] => b.isPrefixOf []
  | c :: tail => b.isPrefixOf (c :: tail) || (decide (c ≠ '\n') && seekSkip b tail)

/-- `dotStarMatch a b s`: does the JavaScript regex `a.*b` match somewhere in
`s`?  True iff some occurrence of `a` in `s` is followed, with no intervening
newline, by an occurrence of `b`. -/
def dotStarMatch (a b : List Char) : List Char → Bool
  | [] => a.isPrefixOf [] && seekSkip b []
  | c :: tail =>
    (a.isPrefixOf (c :: tail) && seekSkip b ((c :: tail).drop a.length))
      || dotStarMatch a b tail

/-- Split a pattern at its first `".*"` (each regex entry of
`RESIZE_OBSERVER_ERRORS` contains exactly one). -/
def splitDotStar : List Char → List Char × List Char
  | [] => ([], [])
  | '.' :: '*' :: rest => ([], rest)
  | c :: rest =>
    let p := splitDotStar rest
    (c :: p.1, p.2)

/-- One iteration of the `RESIZE_OBSERVER_ERRORS.some(...)` callback of
`isResizeObserverError`: patterns containing `".*"` are compiled to a
case-insensitive regex and tested; the rest are lower-cased and tested with
`includes`.  (The `new RegExp` of the source cannot throw on these patterns,
so the `catch` fallback is dead code.) -/
def patternMatches (lowerMessage : List Char) (errorMsg : String) : Bool :=
  if jsIncludes errorMsg.data ".*".data then
    let p := splitDotStar errorMsg.data
    dotStarMatch p.1 p.2 lowerMessage
  else
    jsIncludes lowerMessage (lowerData errorMsg)

/-- `isResizeObserverError` of `resizeObserverFix.ts` (lines 27–45): a
falsy (empty) message is rejected, otherwise the lower-cased message is
tested against every entry of `RESIZE_OBSERVER_ERRORS`. -/
def isResizeObserverError (message : String) : Bool :=
  if message == "" then false
  else
    let lowerMessage := lowerData message
    RESIZE_OBSERVER_ERRORS.any (fun errorMsg => patternMatches lowerMessage errorMsg)

/-- The final `name` check of `isResizeObserverErrorObj`
(`if (error.name && error.name.toLowerCase().includes("resizeobserver"))
return true; return false`): when `name` is truthy, `.toLowerCase()` is
called on it, which throws a `TypeError` when `name` is not a string. -/
def nameCheck (n : JSVal) : Except String Bool :=
  if n.truthy then
    match n with
    | .str s => if jsIncludes (lowerData s) "resizeobserver".data then .ok true else .ok false
    | _ => .error "TypeError: error.name.toLowerCase is not a function"
  else .ok false

/-- `isResizeObserverErrorObj` of `resizeObserverFix.ts` (lines 48–67).
Checks `message` (via `isResizeObserverError`, which rejects non-strings),
then `stack` (early return when the stack is a truthy string), then the
`name` check above. -/
def isResizeObserverErrorObj (error : JSVal) : Except String Bool :=
  if !error.truthy then .ok false
  else
    let m := error.message
    if m.truthy && (match m with | .str s => isResizeObserverError s | _ => false) then
      .ok true
    else
      match error.stack with
      | .str s =>
        if !(s == "") then .ok (jsIncludes (lowerData s) "resizeobserver".data)
        else nameCheck error.errName
      | _ => nameCheck error.errName

end Rof

/-! ## The recognized phrase set of spec §6

The one definition in this development taken from the specification's words
rather than from the source: the fixed benign-phrase set against which the
source classifier is compared. -/

namespace Spec

/-- Spec §6: a fault text is benign iff it case-insensitively contains
`"resizeobserver loop completed with undelivered notifications"`,
`"resizeobserver loop limit exceeded"`, `"resizeobserver: loop limit
exceeded"`, or both `"resizeobserver"` and `"loop"`. -/
def benignPhrase (s : String) : Bool :=
  let l := lowerData s
  jsIncludes l "resizeobserver loop completed with undelivered notifications".data
    || jsIncludes l "resizeobserver loop limit exceeded".data
    || jsIncludes l "resizeobserver: loop limit exceeded".data
    || (jsIncludes l "resizeobserver".data && jsIncludes l "loop".data)

/-- The three exact phrases of spec §6 (without the generic
`"resizeobserver"`+`"loop"` pair). -/
def exactPhrase (s : String) : Bool :=
  let l := lowerData s
  jsIncludes l "resizeobserver loop completed with undelivered notifications".data
    || jsIncludes l "resizeobserver loop limit exceeded".data
    || jsIncludes l "resizeobserver: loop limit exceeded".data

end Spec

/-! ## Claim C1: the classifier versus the §6 phrase set -/

/-- Patterns without `".*"` are matched by plain lower-cased `includes`. -/
theorem patternMatches_literal (lower : List Char) (p : String)
    (h : jsIncludes p.data ".*".data = false) :
    Rof.patternMatches lower p = jsIncludes lower (lowerData p) := by
  simp [Rof.patternMatches, h]

/-- C1 (counterexample): the classifier is not exactly the §6 phrase set,
in either direction.  `"Non-Error exception captured with keys"` and
`"my observer hit a loop today"` contain no recognized §6 phrase (in
particular no occurrence of `"resizeobserver"`), yet
`isResizeObserverError` classifies both as benign resize faults — it does
classify on generic keywords.  Conversely, a text containing both
`"resizeobserver"` and `"loop"` separated by a newline is in the §6 set
but rejected by the classifier, whose regexes do not cross newlines. -/
theorem c1_counterexample :
    Rof.isResizeObserverError "Non-Error exception captured with keys" = true
      ∧ Spec.benignPhrase "Non-Error exception captured with keys" = false
      ∧ Rof.isResizeObserverError "my observer hit a loop today" = true
      ∧ Spec.benignPhrase "my observer hit a loop today" = false
      ∧ Rof.isResizeObserverError "resizeobserver\nloop" = false
      ∧ Spec.benignPhrase "resizeobserver\nloop" = true := by
  decide

/-- C1 (amended): the classifier returns true for every fault text that
case-insensitively contains one of the three exact recognized phrases of
§6; but its match is strictly broader than the §6 set — it also accepts
texts with no resize-observer phrase at all (see the counterexample), such
as `"Non-Error exception captured with keys"`, bare `"loop limit
exceeded"`, bare `"undelivered notifications"`, and `"observer"` or
`"observation"` followed by `"loop"` on the same line. -/
theorem c1_classifier_accepts_spec_phrases (s : String)
    (h : Spec.exactPhrase s = true) :
    Rof.isResizeObserverError s = true := by
  have hs : ¬(s = "") := by
    intro he
    subst he
    exact absurd h (by decide)
  have hcond : (s == "") = false := by
    simp [hs]
  simp only [Spec.exactPhrase, Bool.or_eq_true] at h
  simp only [Rof.isResizeObserverError, hcond, Bool.false_eq_true, if_false]
  apply List.any_eq_true.mpr
  rcases h with (h | h) | h
  · refine ⟨"undelivered notifications", by decide, ?_⟩
    rw [patternMatches_literal _ _ (by decide)]
    exact jsIncludes_eq_true_iff.mpr
      (List.IsInfix.trans (jsIncludes_eq_true_iff.mp (by decide))
        (jsIncludes_eq_true_iff.mp h))
  · refine ⟨"loop limit exceeded", by decide, ?_⟩
    rw [patternMatches_literal _ _ (by decide)]
    exact jsIncludes_eq_true_iff.mpr
      (List.IsInfix.trans (jsIncludes_eq_true_iff.mp (by decide))
        (jsIncludes_eq_true_iff.mp h))
  · refine ⟨"loop limit exceeded", by decide, ?_⟩
    rw [patternMatches_literal _ _ (by decide)]
    exact jsIncludes_eq_true_iff.mpr
      (List.IsInfix.trans (jsIncludes_eq_true_iff.mp (by decide))
        (jsIncludes_eq_true_iff.mp h))

/-- C1 (witness): the amended theorem applied to the canonical benign
message. -/
theorem c1_witness :
    Spec.exactPhrase "ResizeObserver loop completed with undelivered notifications." = true
      ∧ Rof.isResizeObserverError
          "ResizeObserver loop completed with undelivered notifications." = true :=
  ⟨by decide, c1_classifier_accepts_spec_phrases _ (by decide)⟩

/-! ## The simple suppression modules (`part_002` IIFE and the small
`applyNuclearResizeObserverFix` module, namespace `SimpleFix`)

Both files define the identical classifier
`isResizeObserverMessage = (val) => { if (!val) return false;
  const str = String(val.message || val).toLowerCase(); ... }`. -/

namespace SimpleFix

/-- `isResizeObserverMessage` of the simple suppression modules (`part_003`
lines 8–17 and `part_002` lines 11–20): `String(val.message || val)`
lower-cased, tested against four phrases.  The `val.message` read sits
behind the `if (!val) return false` guard, so the function never throws. -/
def isResizeObserverMessage (val : JSVal) : Bool :=
  if !val.truthy then false
  else
    let base := if val.message.truthy then val.message else val
    let str := lowerData base.jsToString
    jsIncludes str "resizeobserver".data
      || jsIncludes str "undelivered notifications".data
      || jsIncludes str "loop limit exceeded".data
      || jsIncludes str "loop completed".data

end SimpleFix

/-! ## Claim C8: totality and exception-freedom of the classifiers -/

/-- Is the value a non-empty (truthy) string? -/
def isTextStr : JSVal → Bool
  | .str s => !(s == "")
  | _ => false

/-- A value "lacking a recognizable textual message": not a non-empty
string itself, and (for objects) carrying no non-empty string in its
`message`, `stack` or `name` properties. -/
def lacksText : JSVal → Bool
  | .str s => s == ""
  | .err m st n => !isTextStr m && !isTextStr st && !isTextStr n
  | _ => true

/-- The value is a string or falsy (the shapes on which a
`.toLowerCase()` call cannot throw). -/
def safeNameVal : JSVal → Bool
  | .str _ => true
  | x => !x.truthy

/-- The object's `name` property is not a truthy non-string (the one shape
on which `isResizeObserverErrorObj`'s `error.name.toLowerCase()` call
throws). -/
def nameSafe : JSVal → Bool
  | .err _ _ n => safeNameVal n
  | _ => true

theorem nameCheck_isOk (n : JSVal) (h : safeNameVal n = true) :
    (Rof.nameCheck n).isOk = true := by
  cases n with
  | str s =>
    simp only [Rof.nameCheck, JSVal.truthy]
    split
    · split <;> rfl
    · rfl
  | undefined => rfl
  | null => rfl
  | bool b => cases b with
    | false => rfl
    | true => simp [safeNameVal, JSVal.truthy] at h
  | err a b c => simp [safeNameVal, JSVal.truthy] at h

theorem nameCheck_textless (n : JSVal) (h1 : isTextStr n = false)
    (h2 : safeNameVal n = true) : Rof.nameCheck n = .ok false := by
  cases n with
  | str s =>
    simp only [isTextStr, Bool.not_eq_true'] at h1
    simp [Rof.nameCheck, JSVal.truthy, h1]
  | undefined => rfl
  | null => rfl
  | bool b => cases b with
    | false => rfl
    | true => simp [safeNameVal, JSVal.truthy] at h2
  | err a b c => simp [safeNameVal, JSVal.truthy] at h2

/-- Unfolding of `isResizeObserverErrorObj` on an object value. -/
theorem isResizeObserverErrorObj_err (m st n : JSVal) :
    Rof.isResizeObserverErrorObj (.err m st n) =
      if m.truthy && (match m with | .str s => Rof.isResizeObserverError s | _ => false) then
        .ok true
      else
        match st with
        | .str s =>
          if !(s == "") then .ok (jsIncludes (lowerData s) "resizeobserver".data)
          else Rof.nameCheck n
        | _ => Rof.nameCheck n := rfl

/-- C8 (counterexample): the classifier is not exception-free for every
input.  On an object whose `name` property is a truthy non-string (here
`{name: true}`), `isResizeObserverErrorObj` reaches
`error.name.toLowerCase()` and throws a `TypeError`. -/
theorem c8_counterexample :
    Rof.isResizeObserverErrorObj (.err .undefined .undefined (.bool true))
      = .error "TypeError: error.name.toLowerCase is not a function" := by
  rfl

/-- C8 (amended): the simple modules' `isResizeObserverMessage` is total
and returns `false` for every value lacking a recognizable textual
message; `isResizeObserverErrorObj` evaluates without throwing on every
input except an object whose `name` property is a truthy non-string (where
its `name.toLowerCase()` call throws — see the counterexample), and also
returns `false` on every name-safe value lacking a textual message. -/
theorem c8_classifier_totality :
    (∀ v : JSVal, lacksText v = true →
        SimpleFix.isResizeObserverMessage v = false)
      ∧ (∀ v : JSVal, nameSafe v = true →
          (Rof.isResizeObserverErrorObj v).isOk = true)
      ∧ (∀ v : JSVal, lacksText v = true → nameSafe v = true →
          Rof.isResizeObserverErrorObj v = .ok false) := by
  refine ⟨?_, ?_, ?_⟩
  · intro v hv
    cases v with
    | undefined => rfl
    | null => rfl
    | bool b => cases b <;> decide
    | str s =>
      simp only [lacksText] at hv
      simp [SimpleFix.isResizeObserverMessage, JSVal.truthy, hv]
    | err m st n =>
      simp only [lacksText, Bool.and_eq_true, Bool.not_eq_true'] at hv
      obtain ⟨⟨hm, _⟩, _⟩ := hv
      cases m with
      | str s =>
        simp only [isTextStr, Bool.not_eq_false', beq_iff_eq] at hm
        subst hm
        rfl
      | undefined => rfl
      | null => rfl
      | bool b =>
        cases b with
        | false => rfl
        | true => rfl
      | err a b c => rfl
  · intro v hv
    cases v with
    | undefined => rfl
    | null => rfl
    | bool b => cases b <;> rfl
    | str s =>
      by_cases h : s = ""
      · subst h; rfl
      · have hc : (s == "") = false := by simp [h]
        simp [Rof.isResizeObserverErrorObj, JSVal.truthy, JSVal.message,
          JSVal.stack, JSVal.errName, Rof.nameCheck, Except.isOk,
          Except.toBool, hc]
    | err m st n =>
      simp only [nameSafe] at hv
      rw [isResizeObserverErrorObj_err]
      split
      · rfl
      · cases st with
        | str s =>
          by_cases h : (s == "") = true
          · simp [h, nameCheck_isOk n hv]
          · simp only [Bool.not_eq_true] at h
            simp [h, Except.isOk, Except.toBool]
        | undefined => exact nameCheck_isOk n hv
        | null => exact nameCheck_isOk n hv
        | bool b => exact nameCheck_isOk n hv
        | err a b c => exact nameCheck_isOk n hv
  · intro v hv hn
    cases v with
    | undefined => rfl
    | null => rfl
    | bool b => cases b <;> rfl
    | str s =>
      simp only [lacksText] at hv
      simp [Rof.isResizeObserverErrorObj, JSVal.truthy, hv]
    | err m st n =>
      simp only [lacksText, Bool.and_eq_true, Bool.not_eq_true'] at hv
      obtain ⟨⟨hm, hst⟩, hname⟩ := hv
      simp only [nameSafe] at hn
      rw [isResizeObserverErrorObj_err]
      rw [if_neg]
      · cases st with
        | str s =>
          simp only [isTextStr, Bool.not_eq_true'] at hst
          simp [hst, nameCheck_textless n hname hn]
        | undefined => exact nameCheck_textless n hname hn
        | null => exact nameCheck_textless n hname hn
        | bool b => exact nameCheck_textless n hname hn
        | err a b c => exact nameCheck_textless n hname hn
      · cases m with
        | str s =>
          simp only [isTextStr, Bool.not_eq_true'] at hm
          simp [JSVal.truthy, hm]
        | undefined => simp [JSVal.truthy]
        | null => simp [JSVal.truthy]
        | bool b => simp [JSVal.truthy]
        | err a b c => simp [JSVal.truthy]

/-- C8 (witness): both classifiers applied to `undefined` (the spec's own
example input) return `false` without throwing. -/
theorem c8_witness :
    SimpleFix.isResizeObserverMessage .undefined = false
      ∧ Rof.isResizeObserverErrorObj .undefined = .ok false :=
  ⟨c8_classifier_totality.1 .undefined (by decide),
   c8_classifier_totality.2.2 .undefined (by decide) (by decide)⟩

/-! ## `universalErrorSuppression.ts` (namespace `Ues`) -/

namespace Ues

/-- The console classifier `isResizeObserverMessage` of
`universalErrorSuppression.ts` (lines 87–95): `String(msg || '')`
lower-cased, tested against six substrings. -/
def isResizeObserverMessage (msg : JSVal) : Bool :=
  let str := lowerData (if msg.truthy then msg else .str "").jsToString
  jsIncludes str "resizeobserver".data
    || jsIncludes str "resize observer".data
    || jsIncludes str "undelivered notifications".data
    || jsIncludes str "loop limit exceeded".data
    || jsIncludes str "loop completed".data
    || jsIncludes str "observation".data

/-- `createSilentConsole` (lines 97–100): wraps a console method so that a
call whose arguments contain any matching value produces no output at all.
A console method is modelled by the list of lines it emits. -/
def createSilentConsole (original : List JSVal → List String) :
    List JSVal → List String :=
  fun args => if args.any isResizeObserverMessage then [] else original args

/-- The five console channels (`error`, `warn`, `log`, `info`, `debug`),
each modelled by the lines a call emits. -/
structure ConsoleState where
  error : List JSVal → List String
  warn : List JSVal → List String
  log : List JSVal → List String
  info : List JSVal → List String
  debug : List JSVal → List String

/-- Lines 102–106: the module body wraps all five console methods with
`createSilentConsole`. -/
def installConsoleOverride (c : ConsoleState) : ConsoleState :=
  { error := createSilentConsole c.error,
    warn := createSilentConsole c.warn,
    log := createSilentConsole c.log,
    info := createSilentConsole c.info,
    debug := createSilentConsole c.debug }

/-- `wrapAsyncFunction`'s `safeCallback` (lines 158–167): the wrapped
`setTimeout`/`setInterval` callback runs inside `try { ... } catch (e) { }`
— an empty catch — so a throwing callback is absorbed and the wrapper
returns `undefined` (`none`) in place of the exception.  A callback is a
computation that either returns a value or throws a fault message.  (The
`requestAnimationFrame` wrapper of lines 175–186 has the identical
`try`/empty-`catch` shape.) -/
def safeCallback {α : Type} (callback : Unit → Except String α) :
    Unit → Except String (Option α) :=
  fun u =>
    match callback u with
    | .ok a => .ok (some a)
    | .error _ => .ok none

end Ues

/-! ## Claim C2: unrelated faults must cross the boundary unchanged -/

/-- C2 (code_bug): after `universalErrorSuppression.ts` wraps the
scheduling functions, a callback that throws an *unrelated* exception —
here `"TypeError: x is not a function"`, which no classifier recognizes —
is silently absorbed by `wrapAsyncFunction`'s empty `catch`: the wrapped
callback never propagates any exception at all (first conjunct), and on
the concrete unrelated fault it returns `undefined` instead of rethrowing
(second conjunct).  This contradicts the claim (and the repository's own
`RESIZE_OBSERVER_FIX.md`: "Only suppresses ResizeObserver errors, not
other types of errors"). -/
theorem c2_wrapped_scheduler_swallows_unrelated_faults :
    (∀ (α : Type) (cb : Unit → Except String α),
        (Ues.safeCallback cb ()).isOk = true)
      ∧ Ues.safeCallback
          (fun _ => (.error "TypeError: x is not a function" : Except String Unit)) ()
          = .ok none := by
  constructor
  · intro α cb
    unfold Ues.safeCallback
    split <;> rfl
  · rfl

/-! ## Claim C10: the guard wraps `console.log`, `console.info`,
`console.debug` -/

/-- The classifier of `nuclearConsoleOverride` (`part_003` lines 211–219):
falsy arguments are rejected, otherwise `String(message)` lower-cased is
tested against five substrings. -/
def nucConsoleIsResizeObserverMessage (message : JSVal) : Bool :=
  if !message.truthy then false
  else
    let str := lowerData message.jsToString
    jsIncludes str "resizeobserver".data
      || jsIncludes str "resize observer".data
      || jsIncludes str "undelivered notifications".data
      || jsIncludes str "loop limit exceeded".data
      || jsIncludes str "loop completed".data

/-- `createSafeMethod` of `nuclearConsoleOverride` (`part_003` lines
221–239): if any argument matches, complete silence. -/
def createSafeMethod (originalMethod : List JSVal → List String) :
    List JSVal → List String :=
  fun args =>
    if args.any nucConsoleIsResizeObserverMessage then [] else originalMethod args

/-- `nuclearConsoleOverride` (`part_003` lines 202–246) wraps all five
console methods with `createSafeMethod`. -/
def nuclearConsoleOverride (c : Ues.ConsoleState) : Ues.ConsoleState :=
  { error := createSafeMethod c.error,
    warn := createSafeMethod c.warn,
    log := createSafeMethod c.log,
    info := createSafeMethod c.info,
    debug := createSafeMethod c.debug }

/-- C10: both installed console overrides wrap `console.log`,
`console.info` and `console.debug` (beyond `error` and `warn`), and for
every call on any of the five channels whose argument list contains a
value matching the module's resize-fault patterns, the call produces no
output at all. -/
theorem c10_log_info_debug_silenced (c : Ues.ConsoleState) (args : List JSVal) :
    (args.any Ues.isResizeObserverMessage = true →
      (Ues.installConsoleOverride c).log args = []
        ∧ (Ues.installConsoleOverride c).info args = []
        ∧ (Ues.installConsoleOverride c).debug args = []
        ∧ (Ues.installConsoleOverride c).error args = []
        ∧ (Ues.installConsoleOverride c).warn args = [])
      ∧ (args.any nucConsoleIsResizeObserverMessage = true →
        (nuclearConsoleOverride c).log args = []
          ∧ (nuclearConsoleOverride c).info args = []
          ∧ (nuclearConsoleOverride c).debug args = []
          ∧ (nuclearConsoleOverride c).error args = []
          ∧ (nuclearConsoleOverride c).warn args = []) := by
  constructor
  · intro h
    refine ⟨?_, ?_, ?_, ?_, ?_⟩ <;>
      simp [Ues.installConsoleOverride, Ues.createSilentConsole, h]
  · intro h
    refine ⟨?_, ?_, ?_, ?_, ?_⟩ <;>
      simp [nuclearConsoleOverride, createSafeMethod, h]

/-- C10 (witness): a console whose every method emits one line, called
with the canonical benign message, emits nothing on any channel after
either override. -/
theorem c10_witness :
    (Ues.installConsoleOverride
        ⟨fun _ => ["out"], fun _ => ["out"], fun _ => ["out"],
         fun _ => ["out"], fun _ => ["out"]⟩).log
      [.str "ResizeObserver loop completed with undelivered notifications."] = [] :=
  ((c10_log_info_debug_silenced _ _).1 (by decide)).1

/-! ## Claim C3: bounded retry of the Observation Lifecycle Manager -/

namespace Spec

/-- Modelled from the spec: the Observation Lifecycle Manager
(`ChartWrapper.tsx` / `useChartResize.ts`) is referenced by the
documentation and the Storybook preview but its implementation file is not
among the sources; the configuration surface follows §4.1/§6:
`{retryDelay, maxRetries (≥ 0), minWidth, minHeight}`. -/
structure ObservationConfig where
  retryDelay : Nat
  maxRetries : Nat
  minWidth : Nat
  minHeight : Nat

/-- The observable outcome of a session: how many measurement attempts
were made, the dimensions carried into the terminal state, and the
readiness flag. -/
structure SessionResult where
  attempts : Nat
  width : Nat
  height : Nat
  ready : Bool
deriving DecidableEq

/-- Modelled from the spec (§4.1 state machine): one measurement per
attempt; dimensions meeting both minimums are terminal success; otherwise
retry while attempts remain; when attempts are exhausted, `ready` is
forced `true` with the last observed (possibly degenerate) dimensions.
`measure k` is the measurement taken on attempt `k` (attempts are
numbered from 0); `remaining` counts the retries still allowed. -/
def runFrom (cfg : ObservationConfig) (measure : Nat → Nat × Nat)
    (attempt : Nat) : Nat → SessionResult
  | 0 =>
    let d := measure attempt
    { attempts := attempt + 1, width := d.1, height := d.2, ready := true }
  | remaining + 1 =>
    let d := measure attempt
    if cfg.minWidth ≤ d.1 && cfg.minHeight ≤ d.2 then
      { attempts := attempt + 1, width := d.1, height := d.2, ready := true }
    else
      runFrom cfg measure (attempt + 1) remaining

/-- Modelled from the spec: a full session starts at attempt 0 with
`maxRetries` retries allowed. -/
def runSession (cfg : ObservationConfig) (measure : Nat → Nat × Nat) :
    SessionResult :=
  runFrom cfg measure 0 cfg.maxRetries

theorem runFrom_all_below (cfg : ObservationConfig)
    (measure : Nat → Nat × Nat)
    (h : ∀ i, (measure i).1 < cfg.minWidth ∨ (measure i).2 < cfg.minHeight) :
    ∀ remaining attempt,
      runFrom cfg measure attempt remaining =
        { attempts := attempt + remaining + 1,
          width := (measure (attempt + remaining)).1,
          height := (measure (attempt + remaining)).2,
          ready := true }
  | 0, attempt => by simp [runFrom]
  | remaining + 1, attempt => by
    have hfail : (cfg.minWidth ≤ (measure attempt).1
        && cfg.minHeight ≤ (measure attempt).2) = false := by
      rcases h attempt with hw | hh
      · simp [Nat.not_le_of_lt hw]
      · simp [Nat.not_le_of_lt hh]
    have ih := runFrom_all_below cfg measure h remaining (attempt + 1)
    simp only [runFrom, hfail, Bool.false_eq_true, if_false, ih]
    have harith : attempt + 1 + remaining = attempt + (remaining + 1) := by omega
    rw [harith]

end Spec

/-- C3: with `maxRetries = 0` a session becomes ready after exactly one
measurement regardless of measured size; and for any `maxRetries = n ≥ 0`,
if every attempt measures below the configured minimums, the session makes
exactly `n + 1` measurement attempts and then is ready, carrying the last
measured (possibly degenerate) dimensions.  (`spec-modelled`: the
Lifecycle Manager implementation is absent from the sources.) -/
theorem c3_retry_exhaustion (cfg : Spec.ObservationConfig)
    (measure : Nat → Nat × Nat) :
    (cfg.maxRetries = 0 →
      (Spec.runSession cfg measure).attempts = 1
        ∧ (Spec.runSession cfg measure).ready = true)
      ∧ ((∀ i, (measure i).1 < cfg.minWidth ∨ (measure i).2 < cfg.minHeight) →
        Spec.runSession cfg measure =
          { attempts := cfg.maxRetries + 1,
            width := (measure cfg.maxRetries).1,
            height := (measure cfg.maxRetries).2,
            ready := true }) := by
  constructor
  · intro h0
    simp [Spec.runSession, h0, Spec.runFrom]
  · intro h
    have := Spec.runFrom_all_below cfg measure h cfg.maxRetries 0
    simpa [Spec.runSession] using this

/-- C3 (witness): the spec's own end-to-end scenario `maxRetries = 2`,
zero measurements throughout: ready after exactly three attempts with the
degenerate dimensions; and a `maxRetries = 0` session is ready after one
attempt. -/
theorem c3_witness :
    Spec.runSession ⟨10, 2, 1, 1⟩ (fun _ => (0, 0)) =
        { attempts := 3, width := 0, height := 0, ready := true }
      ∧ (Spec.runSession ⟨100, 0, 1, 1⟩ (fun _ => (5, 5))).attempts = 1 :=
  ⟨(c3_retry_exhaustion ⟨10, 2, 1, 1⟩ (fun _ => (0, 0))).2
      (fun _ => Or.inl (by decide)),
   ((c3_retry_exhaustion ⟨100, 0, 1, 1⟩ (fun _ => (5, 5))).1 rfl).1⟩

/-! ## Installation state: the global bindings touched by the fixes -/

/-- The value of the global `ResizeObserver` binding. -/
inductive ROBinding where
  /-- The host-provided (native) constructor. -/
  | original : ROBinding
  /-- `ResizeObserverWrapper` (`resizeObserverFix.ts` lines 70–126),
  a subclass extending whatever binding it found. -/
  | wrapper : ROBinding → ROBinding
  /-- `ResizeObserverPolyfill` (`resizeObserverFix.ts` lines 236–326). -/
  | polyfill : ROBinding
  /-- `SafeResizeObserver`, the polling reimplementation of
  `universalErrorSuppression.ts` (lines 11–75). -/
  | safe : ROBinding
  /-- `NuclearResizeObserver` (`part_003` lines 86–199). -/
  | nuclear : ROBinding
deriving DecidableEq

/-- The value of a console method slot: a host method, or the suppression
wrapper closing over an inner method. -/
inductive ConsoleFn where
  | host : Nat → ConsoleFn
  | filtered : ConsoleFn → ConsoleFn
deriving DecidableEq

/-- The value of a `window.onerror` / `window.onunhandledrejection` slot. -/
inductive HandlerFn where
  /-- No handler installed (`null`). -/
  | unset : HandlerFn
  /-- A pre-existing host/application handler. -/
  | host : Nat → HandlerFn
  /-- The delegating wrapper of `setupGlobalErrorHandler`
  (`resizeObserverFix.ts` lines 201–230), closing over the saved previous
  handler. -/
  | rofGuard : HandlerFn → HandlerFn
  /-- The non-delegating override of `nuclearErrorHandlers`
  (`part_003` lines 267–280). -/
  | nuclearGuard : HandlerFn
deriving DecidableEq

namespace Rof

/-- The window/process state touched by `resizeObserverFix.ts`: the
module-level flag and saved console originals, the global `ResizeObserver`
binding, the three wrapped console methods, and the global error
channels. -/
structure WindowState where
  isFixApplied : Bool
  ro : Option ROBinding
  consoleError : ConsoleFn
  consoleWarn : ConsoleFn
  consoleLog : ConsoleFn
  originalConsoleError : Option ConsoleFn
  originalConsoleWarn : Option ConsoleFn
  originalConsoleLog : Option ConsoleFn
  errorListeners : Nat
  rejectionListeners : Nat
  onerror : HandlerFn
  onunhandledrejection : HandlerFn
deriving DecidableEq

/-- `addPolyfillIfNeeded` (lines 234–330): installs the polyfill only when
no `ResizeObserver` binding exists. -/
def addPolyfillIfNeeded (s : WindowState) : WindowState :=
  if s.ro.isNone then { s with ro := some .polyfill } else s

/-- `createResizeObserverWrapper` (lines 70–126): replaces an existing
binding by the wrapper subclass extending it; does nothing when absent. -/
def createResizeObserverWrapper (s : WindowState) : WindowState :=
  match s.ro with
  | none => s
  | some b => { s with ro := some (.wrapper b) }

/-- `suppressConsoleErrors` (lines 129–163): saves the current console
methods the first time only, then points `error`/`warn`/`log` at filtering
wrappers that close over the *saved* originals. -/
def suppressConsoleErrors (s : WindowState) : WindowState :=
  let savedE := match s.originalConsoleError with
    | none => s.consoleError
    | some e => e
  let savedW := match s.originalConsoleError with
    | none => s.consoleWarn
    | some _ => s.originalConsoleWarn.getD s.consoleWarn
  let savedL := match s.originalConsoleError with
    | none => s.consoleLog
    | some _ => s.originalConsoleLog.getD s.consoleLog
  { s with
    originalConsoleError := some savedE,
    originalConsoleWarn := some savedW,
    originalConsoleLog := some savedL,
    consoleError := .filtered savedE,
    consoleWarn := .filtered savedW,
    consoleLog := .filtered savedL }

/-- `setupGlobalErrorHandler` (lines 166–231): adds one capture-phase
listener on each global channel and wraps `onerror` /
`onunhandledrejection` with delegating guards. -/
def setupGlobalErrorHandler (s : WindowState) : WindowState :=
  { s with
    errorListeners := s.errorListeners + 1,
    rejectionListeners := s.rejectionListeners + 1,
    onerror := .rofGuard s.onerror,
    onunhandledrejection := .rofGuard s.onunhandledrejection }

/-- `applyResizeObserverFix` (lines 333–349): a no-op when the module flag
`isFixApplied` is already set; otherwise performs the four installation
steps and sets the flag. -/
def applyResizeObserverFix (s : WindowState) : WindowState :=
  if s.isFixApplied then s
  else
    let s4 := setupGlobalErrorHandler
      (suppressConsoleErrors (createResizeObserverWrapper (addPolyfillIfNeeded s)))
    { s4 with isFixApplied := true }

end Rof

namespace Nuc

/-- The window/process state touched by the nuclear fix module
(`part_003`, second file): its own flag, the saved original binding, the
`ResizeObserver` binding, all five console methods, the error channels,
and the wrap depth of the scheduling functions. -/
structure NWindowState where
  nuclearFixApplied : Bool
  ro : Option ROBinding
  originalRO : Option ROBinding
  consoleError : ConsoleFn
  consoleWarn : ConsoleFn
  consoleLog : ConsoleFn
  consoleInfo : ConsoleFn
  consoleDebug : ConsoleFn
  errorListeners : Nat
  rejectionListeners : Nat
  onerror : HandlerFn
  onunhandledrejection : HandlerFn
  timerWraps : Nat
deriving DecidableEq

/-- `nuclearDOMOverride` (`part_003` lines 301–321): stores the original
binding once, then installs `NuclearResizeObserver` globally. -/
def nuclearDOMOverride (s : NWindowState) : NWindowState :=
  let saved := if s.ro.isSome && s.originalRO.isNone then s.ro else s.originalRO
  { s with originalRO := saved, ro := some .nuclear }

/-- `nuclearConsoleOverride` (`part_003` lines 202–246): captures the
current methods and wraps all five. -/
def nuclearConsoleOverrideState (s : NWindowState) : NWindowState :=
  { s with
    consoleError := .filtered s.consoleError,
    consoleWarn := .filtered s.consoleWarn,
    consoleLog := .filtered s.consoleLog,
    consoleInfo := .filtered s.consoleInfo,
    consoleDebug := .filtered s.consoleDebug }

/-- `nuclearErrorHandlers` (`part_003` lines 249–298): overrides both
handler slots with fresh non-delegating guards and adds one capture-phase
listener per channel. -/
def nuclearErrorHandlers (s : NWindowState) : NWindowState :=
  { s with
    onerror := .nuclearGuard,
    onunhandledrejection := .nuclearGuard,
    errorListeners := s.errorListeners + 1,
    rejectionListeners := s.rejectionListeners + 1 }

/-- `nuclearTimerOverride` (`part_003` lines 324–366): wraps `setTimeout`,
`setInterval` and `requestAnimationFrame` once more. -/
def nuclearTimerOverride (s : NWindowState) : NWindowState :=
  { s with timerWraps := s.timerWraps + 1 }

/-- `applyNuclearResizeObserverFix` (`part_003` lines 369–386): a no-op
when `nuclearFixApplied` is set; otherwise applies the four overrides and
sets the flag. -/
def applyNuclearResizeObserverFix (s : NWindowState) : NWindowState :=
  if s.nuclearFixApplied then s
  else
    let s4 := nuclearTimerOverride
      (nuclearErrorHandlers (nuclearConsoleOverrideState (nuclearDOMOverride s)))
    { s4 with nuclearFixApplied := true }

end Nuc

/-! ## Claim C4: installation is idempotent -/

/-- C4: installing the global guard twice leaves exactly the state of
installing it once — for `applyResizeObserverFix` and for
`applyNuclearResizeObserverFix` (each short-circuits on its module flag),
from any starting state; moreover even the console-wrapping step alone is
idempotent (re-running `suppressConsoleErrors` re-points the console at
wrappers over the *saved* originals, so nothing is wrapped twice). -/
theorem c4_install_idempotent :
    (∀ s : Rof.WindowState,
        Rof.applyResizeObserverFix (Rof.applyResizeObserverFix s)
          = Rof.applyResizeObserverFix s)
      ∧ (∀ t : Nuc.NWindowState,
        Nuc.applyNuclearResizeObserverFix (Nuc.applyNuclearResizeObserverFix t)
          = Nuc.applyNuclearResizeObserverFix t)
      ∧ (∀ s : Rof.WindowState,
        Rof.suppressConsoleErrors (Rof.suppressConsoleErrors s)
          = Rof.suppressConsoleErrors s) := by
  refine ⟨?_, ?_, ?_⟩
  · intro s
    by_cases h : s.isFixApplied <;>
      simp [Rof.applyResizeObserverFix, h]
  · intro t
    by_cases h : t.nuclearFixApplied <;>
      simp [Nuc.applyNuclearResizeObserverFix, h]
  · intro s
    cases h : s.originalConsoleError <;>
      simp [Rof.suppressConsoleErrors, h]

/-! ## Claim C6: is the observation primitive left unchanged? -/

/-- A fresh browser window before any fix module runs: the native
`ResizeObserver`, host console methods, no handlers, no listeners. -/
def hostWindow : Rof.WindowState :=
  { isFixApplied := false,
    ro := some .original,
    consoleError := .host 0,
    consoleWarn := .host 1,
    consoleLog := .host 2,
    originalConsoleError := none,
    originalConsoleWarn := none,
    originalConsoleLog := none,
    errorListeners := 0,
    rejectionListeners := 0,
    onerror := .unset,
    onunhandledrejection := .unset }

/-- `universalErrorSuppression.ts` lines 7–76: when a `ResizeObserver`
binding exists, the module body replaces it with the self-contained
polling class `SafeResizeObserver` (the captured `OriginalRO` constant is
never used by the replacement). -/
def uesInstallResizeObserver (ro : Option ROBinding) : Option ROBinding :=
  if ro.isSome then some .safe else ro

/-- C6 (counterexample): installing the containment boundary does *not*
leave the global `ResizeObserver` binding as the original host
constructor: on a fresh window, `applyResizeObserverFix` rebinds it to the
wrapper subclass. -/
theorem c6_counterexample :
    (Rof.applyResizeObserverFix hostWindow).ro
        = some (ROBinding.wrapper .original)
      ∧ (Rof.applyResizeObserverFix hostWindow).ro ≠ some ROBinding.original := by
  decide

/-- C6 (amended): installation replaces the observation primitive rather
than leaving it untouched: `applyResizeObserverFix` rebinds any present
`ResizeObserver` to the `ResizeObserverWrapper` subclass extending it (the
original survives only as the wrapper's base), and the
`universalErrorSuppression` module body rebinds any present
`ResizeObserver` to the polling reimplementation `SafeResizeObserver`. -/
theorem c6_install_replaces_primitive :
    (∀ (s : Rof.WindowState) (b : ROBinding),
        s.isFixApplied = false → s.ro = some b →
          (Rof.applyResizeObserverFix s).ro = some (ROBinding.wrapper b))
      ∧ (∀ b : ROBinding,
        uesInstallResizeObserver (some b) = some ROBinding.safe) := by
  constructor
  · intro s b hflag hro
    simp [Rof.applyResizeObserverFix, hflag, Rof.setupGlobalErrorHandler,
      Rof.suppressConsoleErrors, Rof.createResizeObserverWrapper,
      Rof.addPolyfillIfNeeded, hro]
  · intro b
    rfl

/-- C6 (witness): the amended theorem on the fresh window with the native
binding. -/
theorem c6_witness :
    (Rof.applyResizeObserverFix hostWindow).ro
        = some (ROBinding.wrapper .original)
      ∧ uesInstallResizeObserver (some .original) = some ROBinding.safe :=
  ⟨c6_install_replaces_primitive.1 hostWindow .original rfl rfl,
   c6_install_replaces_primitive.2 .original⟩

/-! ## Observer scheduling: `NuclearResizeObserver` and `SafeResizeObserver`

Both classes keep a single nullable `rafId` field.  The embedding carries
`rafIdSet` (is `rafId` non-null?) together with `rafsLive`, the number of
animation-frame callbacks belonging to the observer still pending in the
host scheduler (`requestAnimationFrame` increments it; a callback firing
or a `cancelAnimationFrame` of a pending id decrements it).  Every element
is modelled as connected, so the entry list built by a callback run is
non-empty exactly when some element is observed; `fired` counts
user-callback invocations — the observable behaviour. -/

/-- A scheduler step the environment can take: fire a pending
animation-frame callback, or fire a pending timeout. -/
inductive EnvTask where
  | raf : EnvTask
  | timeout : EnvTask

namespace Nuc

/-- The mutable state of a `NuclearResizeObserver` (`part_003` lines
86–199) together with its pending host-scheduler work. -/
structure NucObs where
  isDestroyed : Bool
  elems : Nat
  rafIdSet : Bool
  rafsLive : Nat
  timeouts : Nat
  fired : Nat
deriving DecidableEq

/-- A freshly constructed observer: nothing observed, nothing pending. -/
def NucObs.init : NucObs :=
  { isDestroyed := false, elems := 0, rafIdSet := false, rafsLive := 0,
    timeouts := 0, fired := 0 }

/-- `cleanup` (lines 119–124): cancel the stored animation frame, if any,
and null the id. -/
def cleanup (s : NucObs) : NucObs :=
  if s.rafIdSet then { s with rafIdSet := false, rafsLive := s.rafsLive - 1 }
  else s

/-- `scheduleCallback` (line 127): returns without scheduling when the
observer is destroyed *or a pending handle already exists*; otherwise
requests one animation frame and stores its id. -/
def scheduleCallback (s : NucObs) : NucObs :=
  if s.isDestroyed || s.rafIdSet then s
  else { s with rafIdSet := true, rafsLive := s.rafsLive + 1 }

/-- `observe` (lines 96–101). -/
def observe (s : NucObs) : NucObs :=
  if s.isDestroyed then s
  else scheduleCallback { s with elems := s.elems + 1 }

/-- `unobserve` (lines 103–110). -/
def unobserve (s : NucObs) : NucObs :=
  if s.isDestroyed then s
  else
    let s' := { s with elems := s.elems - 1 }
    if s'.elems = 0 then cleanup s' else s'

/-- `disconnect` (lines 112–117): set the destroyed flag, clear the
element set, and cancel any pending frame. -/
def disconnect (s : NucObs) : NucObs :=
  cleanup { s with isDestroyed := true, elems := 0 }

/-- The animation-frame callback body (lines 129–197): null `rafId` first,
bail out when destroyed or empty, otherwise build entries and invoke the
user callback, then schedule a retry timeout while still active. -/
def fireRaf (s : NucObs) : NucObs :=
  if s.rafsLive = 0 then s
  else
    let s1 := { s with rafsLive := s.rafsLive - 1, rafIdSet := false }
    if s1.isDestroyed || s1.elems = 0 then s1
    else
      let s2 := { s1 with fired := s1.fired + 1 }
      if !s2.isDestroyed && decide (0 < s2.elems) then
        { s2 with timeouts := s2.timeouts + 1 }
      else s2

/-- The retry timeout body (lines 191–195): `if (!this.isDestroyed)
this.scheduleCallback()`. -/
def fireTimeout (s : NucObs) : NucObs :=
  if s.timeouts = 0 then s
  else
    let s1 := { s with timeouts := s.timeouts - 1 }
    if s1.isDestroyed then s1 else scheduleCallback s1

/-- One environment scheduler step. -/
def stepEnv : EnvTask → NucObs → NucObs
  | .raf => fireRaf
  | .timeout => fireTimeout

/-- Run a sequence of environment steps. -/
def runEnv (ts : List EnvTask) (s : NucObs) : NucObs :=
  ts.foldl (fun t e => stepEnv e t) s

/-- An operation on the observer: an API call or an environment step. -/
inductive NucOp where
  | observe : NucOp
  | unobserve : NucOp
  | disconnect : NucOp
  | raf : NucOp
  | timeout : NucOp

def applyNucOp : NucOp → NucObs → NucObs
  | .observe => observe
  | .unobserve => unobserve
  | .disconnect => disconnect
  | .raf => fireRaf
  | .timeout => fireTimeout

/-- Run a sequence of operations from a state. -/
def runNuc (ops : List NucOp) (s : NucObs) : NucObs :=
  ops.foldl (fun t op => applyNucOp op t) s

end Nuc

namespace Ues

/-- The mutable state of a `SafeResizeObserver`
(`universalErrorSuppression.ts` lines 11–75) together with its pending
host-scheduler work. -/
structure SafeObs where
  elems : Nat
  rafIdSet : Bool
  rafsLive : Nat
  timeouts : Nat
  fired : Nat
deriving DecidableEq

/-- A freshly constructed observer. -/
def SafeObs.init : SafeObs :=
  { elems := 0, rafIdSet := false, rafsLive := 0, timeouts := 0, fired := 0 }

/-- `scheduleUpdate` (lines 37–40): `if (this.rafId) return;` — returns
without scheduling when a pending handle already exists. -/
def scheduleUpdate (s : SafeObs) : SafeObs :=
  if s.rafIdSet then s
  else { s with rafIdSet := true, rafsLive := s.rafsLive + 1 }

/-- `observe` (lines 20–23). -/
def observe (s : SafeObs) : SafeObs :=
  scheduleUpdate { s with elems := s.elems + 1 }

/-- `unobserve` (lines 25–27). -/
def unobserve (s : SafeObs) : SafeObs :=
  { s with elems := s.elems - 1 }

/-- `disconnect` (lines 29–35): clear the elements, cancel any pending
frame and null the id. -/
def disconnect (s : SafeObs) : SafeObs :=
  let s' := { s with elems := 0 }
  if s'.rafIdSet then { s' with rafIdSet := false, rafsLive := s'.rafsLive - 1 }
  else s'

/-- The animation-frame callback body (lines 40–73): null `rafId` first;
invoke the user callback when the entry list is non-empty; re-arm via a
16ms timeout while elements remain. -/
def fireRaf (s : SafeObs) : SafeObs :=
  if s.rafsLive = 0 then s
  else
    let s1 := { s with rafsLive := s.rafsLive - 1, rafIdSet := false }
    let s2 := if 0 < s1.elems then { s1 with fired := s1.fired + 1 } else s1
    if 0 < s2.elems then { s2 with timeouts := s2.timeouts + 1 } else s2

/-- The re-arm timeout body (lines 66–72): `if (this.elements.size > 0)
this.scheduleUpdate()`. -/
def fireTimeout (s : SafeObs) : SafeObs :=
  if s.timeouts = 0 then s
  else
    let s1 := { s with timeouts := s.timeouts - 1 }
    if 0 < s1.elems then scheduleUpdate s1 else s1

/-- One environment scheduler step. -/
def stepEnv : EnvTask → SafeObs → SafeObs
  | .raf => fireRaf
  | .timeout => fireTimeout

/-- Run a sequence of environment steps. -/
def runEnv (ts : List EnvTask) (s : SafeObs) : SafeObs :=
  ts.foldl (fun t e => stepEnv e t) s

/-- An operation on the observer: an API call or an environment step. -/
inductive SafeOp where
  | observe : SafeOp
  | unobserve : SafeOp
  | disconnect : SafeOp
  | raf : SafeOp
  | timeout : SafeOp

def applySafeOp : SafeOp → SafeObs → SafeObs
  | .observe => observe
  | .unobserve => unobserve
  | .disconnect => disconnect
  | .raf => fireRaf
  | .timeout => fireTimeout

/-- Run a sequence of operations from a state. -/
def runSafe (ops : List SafeOp) (s : SafeObs) : SafeObs :=
  ops.foldl (fun t op => applySafeOp op t) s

end Ues

/-! ## Claim C7: stopping is absorbing -/

namespace Rof

/-- The mutable state of a `ResizeObserverPolyfill`
(`resizeObserverFix.ts` lines 236–326) with its pending host-scheduler
work.  This class never nulls `rafId` inside the frame callback and its
`scheduleCallback` stores a new id unconditionally, so the stored id can
go dead (`storedLive = false` while `rafIdSet`) and an overwritten id's
frame stays pending but uncancellable (`staleRafs`). -/
structure PolyObs where
  elems : Nat
  connected : Bool
  rafIdSet : Bool
  storedLive : Bool
  staleRafs : Nat
  timeouts : Nat
  fired : Nat
deriving DecidableEq

/-- `scheduleCallback` (lines 270–273): bail out when not connected,
otherwise request a frame and overwrite `rafId` (a still-pending previous
frame becomes stale). -/
def polyScheduleCallback (s : PolyObs) : PolyObs :=
  if !s.connected then s
  else
    { s with
      rafIdSet := true,
      storedLive := true,
      staleRafs := s.staleRafs + cond s.storedLive 1 0 }

/-- The body shared by every polyfill frame callback (lines 273–324):
invoke the user callback when connected with elements, then re-arm a
100ms timeout while connected. -/
def polyRafBody (s1 : PolyObs) : PolyObs :=
  let s2 := if s1.connected && decide (0 < s1.elems) then
      { s1 with fired := s1.fired + 1 }
    else s1
  if s2.connected then { s2 with timeouts := s2.timeouts + 1 } else s2

/-- `observe` (lines 246–252). -/
def polyObserve (s : PolyObs) : PolyObs :=
  let s1 := { s with elems := s.elems + 1 }
  if !s1.connected then polyScheduleCallback { s1 with connected := true }
  else s1

/-- `disconnect` (lines 261–268): clear the elements, drop `connected`,
and cancel the stored frame if the id is non-null. -/
def polyDisconnect (s : PolyObs) : PolyObs :=
  let s1 := { s with elems := 0, connected := false }
  if s1.rafIdSet then { s1 with storedLive := false, rafIdSet := false }
  else s1

/-- `unobserve` (lines 254–259). -/
def polyUnobserve (s : PolyObs) : PolyObs :=
  let s1 := { s with elems := s.elems - 1 }
  if s1.elems = 0 then polyDisconnect s1 else s1

/-- The stored (cancellable) frame fires; `rafId` is *not* nulled. -/
def polyFireStored (s : PolyObs) : PolyObs :=
  if !s.storedLive then s
  else polyRafBody { s with storedLive := false }

/-- A stale (uncancellable) frame fires. -/
def polyFireStale (s : PolyObs) : PolyObs :=
  if s.staleRafs = 0 then s
  else polyRafBody { s with staleRafs := s.staleRafs - 1 }

/-- The 100ms re-arm timeout fires (line 322). -/
def polyFireTimeout (s : PolyObs) : PolyObs :=
  if s.timeouts = 0 then s
  else polyScheduleCallback { s with timeouts := s.timeouts - 1 }

/-- A scheduler step the environment can take against the polyfill. -/
inductive PolyTask where
  | rafStored : PolyTask
  | rafStale : PolyTask
  | timeout : PolyTask

def polyStep : PolyTask → PolyObs → PolyObs
  | .rafStored => polyFireStored
  | .rafStale => polyFireStale
  | .timeout => polyFireTimeout

/-- Run a sequence of environment steps against the polyfill. -/
def polyRunEnv (ts : List PolyTask) (s : PolyObs) : PolyObs :=
  ts.foldl (fun t e => polyStep e t) s

end Rof

theorem poly_step_disconnected (t : Rof.PolyTask) (s : Rof.PolyObs)
    (h : s.connected = false) :
    (Rof.polyStep t s).connected = false ∧ (Rof.polyStep t s).fired = s.fired := by
  cases t with
  | rafStored =>
    simp only [Rof.polyStep, Rof.polyFireStored, Rof.polyRafBody]
    split
    · exact ⟨h, rfl⟩
    · simp [h]
  | rafStale =>
    simp only [Rof.polyStep, Rof.polyFireStale, Rof.polyRafBody]
    split
    · exact ⟨h, rfl⟩
    · simp [h]
  | timeout =>
    simp only [Rof.polyStep, Rof.polyFireTimeout, Rof.polyScheduleCallback]
    split
    · exact ⟨h, rfl⟩
    · simp [h]

theorem poly_runEnv_disconnected :
    ∀ (ts : List Rof.PolyTask) (s : Rof.PolyObs), s.connected = false →
      (Rof.polyRunEnv ts s).fired = s.fired
  | [], _, _ => rfl
  | t :: ts, s, h => by
    have hs := poly_step_disconnected t s h
    have ih := poly_runEnv_disconnected ts (Rof.polyStep t s) hs.1
    simp only [Rof.polyRunEnv, List.foldl_cons] at ih ⊢
    rw [ih, hs.2]

theorem poly_disconnect_disconnected (s : Rof.PolyObs) :
    (Rof.polyDisconnect s).connected = false := by
  simp only [Rof.polyDisconnect]
  split <;> rfl

theorem nuc_stepEnv_destroyed (t : EnvTask) (s : Nuc.NucObs)
    (h : s.isDestroyed = true) :
    (Nuc.stepEnv t s).isDestroyed = true ∧ (Nuc.stepEnv t s).fired = s.fired := by
  cases t with
  | raf =>
    simp only [Nuc.stepEnv, Nuc.fireRaf]
    split
    · exact ⟨h, rfl⟩
    · simp [h]
  | timeout =>
    simp only [Nuc.stepEnv, Nuc.fireTimeout]
    split
    · exact ⟨h, rfl⟩
    · simp [h]

theorem nuc_runEnv_destroyed :
    ∀ (ts : List EnvTask) (s : Nuc.NucObs), s.isDestroyed = true →
      (Nuc.runEnv ts s).fired = s.fired
  | [], _, _ => rfl
  | t :: ts, s, h => by
    have hs := nuc_stepEnv_destroyed t s h
    have ih := nuc_runEnv_destroyed ts (Nuc.stepEnv t s) hs.1
    simp only [Nuc.runEnv, List.foldl_cons] at ih ⊢
    rw [ih, hs.2]

theorem safe_stepEnv_empty (t : EnvTask) (s : Ues.SafeObs)
    (h : s.elems = 0) :
    (Ues.stepEnv t s).elems = 0 ∧ (Ues.stepEnv t s).fired = s.fired := by
  cases t with
  | raf =>
    simp only [Ues.stepEnv, Ues.fireRaf]
    split
    · exact ⟨h, rfl⟩
    · simp [h]
  | timeout =>
    simp only [Ues.stepEnv, Ues.fireTimeout]
    split
    · exact ⟨h, rfl⟩
    · simp [h]

theorem safe_runEnv_empty :
    ∀ (ts : List EnvTask) (s : Ues.SafeObs), s.elems = 0 →
      (Ues.runEnv ts s).fired = s.fired
  | [], _, _ => rfl
  | t :: ts, s, h => by
    have hs := safe_stepEnv_empty t s h
    have ih := safe_runEnv_empty ts (Ues.stepEnv t s) hs.1
    simp only [Ues.runEnv, List.foldl_cons] at ih ⊢
    rw [ih, hs.2]

theorem nuc_disconnect_destroyed (s : Nuc.NucObs) :
    (Nuc.disconnect s).isDestroyed = true := by
  simp only [Nuc.disconnect, Nuc.cleanup]
  split <;> rfl

theorem safe_disconnect_empty (s : Ues.SafeObs) :
    (Ues.disconnect s).elems = 0 := by
  simp only [Ues.disconnect]
  split <;> rfl

/-- C7: stopping an observation session is absorbing and idempotent, for
all three observer implementations (`NuclearResizeObserver`,
`SafeResizeObserver`, `ResizeObserverPolyfill`): once `disconnect()`
returns, no sequence of environment steps — pending animation-frame
callbacks firing (cancellable or stale) or already-scheduled retry
timeouts firing — ever invokes the user callback again (the `fired` count
never changes), and calling `disconnect` again leaves the state
untouched. -/
theorem c7_stop_is_absorbing :
    (∀ (s : Nuc.NucObs) (ts : List EnvTask),
        (Nuc.runEnv ts (Nuc.disconnect s)).fired = (Nuc.disconnect s).fired)
      ∧ (∀ s : Nuc.NucObs, Nuc.disconnect (Nuc.disconnect s) = Nuc.disconnect s)
      ∧ (∀ (s : Ues.SafeObs) (ts : List EnvTask),
        (Ues.runEnv ts (Ues.disconnect s)).fired = (Ues.disconnect s).fired)
      ∧ (∀ s : Ues.SafeObs, Ues.disconnect (Ues.disconnect s) = Ues.disconnect s)
      ∧ (∀ (s : Rof.PolyObs) (ts : List Rof.PolyTask),
        (Rof.polyRunEnv ts (Rof.polyDisconnect s)).fired
          = (Rof.polyDisconnect s).fired)
      ∧ (∀ s : Rof.PolyObs,
        Rof.polyDisconnect (Rof.polyDisconnect s) = Rof.polyDisconnect s) := by
  refine ⟨?_, ?_, ?_, ?_, ?_, ?_⟩
  · intro s ts
    exact nuc_runEnv_destroyed ts _ (nuc_disconnect_destroyed s)
  · intro s
    cases h : s.rafIdSet <;>
      simp [Nuc.disconnect, Nuc.cleanup, h]
  · intro s ts
    exact safe_runEnv_empty ts _ (safe_disconnect_empty s)
  · intro s
    cases h : s.rafIdSet <;>
      simp [Ues.disconnect, h]
  · intro s ts
    exact poly_runEnv_disconnected ts _ (poly_disconnect_disconnected s)
  · intro s
    cases h : s.rafIdSet <;>
      simp [Rof.polyDisconnect, h]

/-! ## Claim C9: at most one pending attempt per session -/

/-- The single-`rafId` discipline: at most one animation-frame callback of
the observer is pending, and the stored id is non-null exactly when one
is. -/
def rafInvN (s : Nuc.NucObs) : Prop :=
  s.rafsLive ≤ 1 ∧ (s.rafIdSet = true ↔ s.rafsLive = 1)

theorem rafInvN_cleanup {s : Nuc.NucObs} (h : rafInvN s) :
    rafInvN (Nuc.cleanup s) := by
  obtain ⟨h1, h2⟩ := h
  unfold Nuc.cleanup
  split
  · rename_i hset
    have hone := h2.mp hset
    constructor
    · simp
      omega
    · simp
      omega
  · exact ⟨h1, h2⟩

theorem rafInvN_schedule {s : Nuc.NucObs} (h : rafInvN s) :
    rafInvN (Nuc.scheduleCallback s) := by
  obtain ⟨h1, h2⟩ := h
  unfold Nuc.scheduleCallback
  split
  · exact ⟨h1, h2⟩
  · rename_i hcond
    have hor : (s.isDestroyed || s.rafIdSet) = false := by
      revert hcond
      cases s.isDestroyed || s.rafIdSet <;> simp
    have hset : s.rafIdSet = false := (Bool.or_eq_false_iff.mp hor).2
    have hne : s.rafsLive ≠ 1 := fun he => by simp [h2.mpr he] at hset
    constructor
    · simp
      omega
    · simp
      omega

theorem rafInvN_fireRaf {s : Nuc.NucObs} (h : rafInvN s) :
    rafInvN (Nuc.fireRaf s) := by
  obtain ⟨h1, h2⟩ := h
  unfold Nuc.fireRaf
  split
  · exact ⟨h1, h2⟩
  · dsimp only
    split
    · constructor
      · simp
        omega
      · simp
        omega
    · split
      · constructor
        · simp
          omega
        · simp
          omega
      · constructor
        · simp
          omega
        · simp
          omega

theorem rafInvN_fireTimeout {s : Nuc.NucObs} (h : rafInvN s) :
    rafInvN (Nuc.fireTimeout s) := by
  obtain ⟨h1, h2⟩ := h
  unfold Nuc.fireTimeout
  split
  · exact ⟨h1, h2⟩
  · dsimp only
    split
    · exact ⟨h1, h2⟩
    · exact rafInvN_schedule ⟨h1, h2⟩

theorem rafInvN_apply (op : Nuc.NucOp) {s : Nuc.NucObs} (h : rafInvN s) :
    rafInvN (Nuc.applyNucOp op s) := by
  obtain ⟨h1, h2⟩ := h
  cases op with
  | observe =>
    simp only [Nuc.applyNucOp, Nuc.observe]
    split
    · exact ⟨h1, h2⟩
    · exact rafInvN_schedule ⟨h1, h2⟩
  | unobserve =>
    simp only [Nuc.applyNucOp, Nuc.unobserve]
    split
    · exact ⟨h1, h2⟩
    · split
      · exact rafInvN_cleanup ⟨h1, h2⟩
      · exact ⟨h1, h2⟩
  | disconnect => exact rafInvN_cleanup ⟨h1, h2⟩
  | raf => exact rafInvN_fireRaf ⟨h1, h2⟩
  | timeout => exact rafInvN_fireTimeout ⟨h1, h2⟩

theorem rafInvN_run :
    ∀ (ops : List Nuc.NucOp) (s : Nuc.NucObs), rafInvN s →
      rafInvN (Nuc.runNuc ops s)
  | [], _, h => h
  | op :: ops, s, h => by
    have ih := rafInvN_run ops (Nuc.applyNucOp op s) (rafInvN_apply op h)
    simpa [Nuc.runNuc, List.foldl_cons] using ih

/-- The same discipline for `SafeResizeObserver`. -/
def rafInvS (s : Ues.SafeObs) : Prop :=
  s.rafsLive ≤ 1 ∧ (s.rafIdSet = true ↔ s.rafsLive = 1)

theorem rafInvS_schedule {s : Ues.SafeObs} (h : rafInvS s) :
    rafInvS (Ues.scheduleUpdate s) := by
  obtain ⟨h1, h2⟩ := h
  unfold Ues.scheduleUpdate
  split
  · exact ⟨h1, h2⟩
  · rename_i hcond
    have hset : s.rafIdSet = false := by
      revert hcond
      cases s.rafIdSet <;> simp
    have hne : s.rafsLive ≠ 1 := fun he => by simp [h2.mpr he] at hset
    constructor
    · simp
      omega
    · simp
      omega

theorem rafInvS_apply (op : Ues.SafeOp) {s : Ues.SafeObs} (h : rafInvS s) :
    rafInvS (Ues.applySafeOp op s) := by
  obtain ⟨h1, h2⟩ := h
  cases op with
  | observe => exact rafInvS_schedule ⟨h1, h2⟩
  | unobserve => exact ⟨h1, h2⟩
  | disconnect =>
    simp only [Ues.applySafeOp, Ues.disconnect]
    split
    · rename_i hset
      have hone := h2.mp hset
      constructor
      · simp
        omega
      · simp
        omega
    · exact ⟨h1, h2⟩
  | raf =>
    simp only [Ues.applySafeOp, Ues.fireRaf]
    split
    · exact ⟨h1, h2⟩
    · split
      · constructor
        · simp
          omega
        · simp
          omega
      · constructor
        · simp
          omega
        · simp
          omega
  | timeout =>
    simp only [Ues.applySafeOp, Ues.fireTimeout]
    split
    · exact ⟨h1, h2⟩
    · split
      · exact rafInvS_schedule ⟨h1, h2⟩
      · exact ⟨h1, h2⟩

theorem rafInvS_run :
    ∀ (ops : List Ues.SafeOp) (s : Ues.SafeObs), rafInvS s →
      rafInvS (Ues.runSafe ops s)
  | [], _, h => h
  | op :: ops, s, h => by
    have ih := rafInvS_run ops (Ues.applySafeOp op s) (rafInvS_apply op h)
    simpa [Ues.runSafe, List.foldl_cons] using ih

/-- C9: within one observer, attempts are strictly sequential.  From a
fresh `NuclearResizeObserver` or `SafeResizeObserver`, after any sequence
of API calls and scheduler steps at most one animation-frame attempt
callback is pending; and whenever a pending handle exists the scheduler
(`scheduleCallback` / `scheduleUpdate`) returns without scheduling
anything. -/
theorem c9_attempts_sequential :
    (∀ ops : List Nuc.NucOp, (Nuc.runNuc ops Nuc.NucObs.init).rafsLive ≤ 1)
      ∧ (∀ s : Nuc.NucObs, s.rafIdSet = true → Nuc.scheduleCallback s = s)
      ∧ (∀ ops : List Ues.SafeOp, (Ues.runSafe ops Ues.SafeObs.init).rafsLive ≤ 1)
      ∧ (∀ s : Ues.SafeObs, s.rafIdSet = true → Ues.scheduleUpdate s = s) := by
  refine ⟨?_, ?_, ?_, ?_⟩
  · intro ops
    exact (rafInvN_run ops _ (by simp [Nuc.NucObs.init, rafInvN])).1
  · intro s h
    simp [Nuc.scheduleCallback, h]
  · intro ops
    exact (rafInvS_run ops _ (by simp [Ues.SafeObs.init, rafInvS])).1
  · intro s h
    simp [Ues.scheduleUpdate, h]

/-- C9 (witness): two immediate `observe` calls schedule only one pending
attempt, and the scheduler is a no-op on a state with a pending handle. -/
theorem c9_witness :
    (Nuc.runNuc [.observe, .observe] Nuc.NucObs.init).rafsLive ≤ 1
      ∧ Nuc.scheduleCallback ⟨false, 2, true, 1, 0, 0⟩ = ⟨false, 2, true, 1, 0, 0⟩
      ∧ Ues.scheduleUpdate ⟨2, true, 1, 0, 0⟩ = ⟨2, true, 1, 0, 0⟩ :=
  ⟨c9_attempts_sequential.1 [.observe, .observe],
   c9_attempts_sequential.2.1 _ rfl,
   c9_attempts_sequential.2.2.2 _ rfl⟩

/-! ## Claim C5: global fault channels after installation

The global channels (`error` events, `window.onerror`,
`unhandledrejection`) are modelled as a list of listeners run in
registration order — a listener can prevent the default action, stop the
remaining listeners (`stopImmediatePropagation`), and emit console lines —
followed by the browser's default report when not prevented.  The modules
install on a fresh window (they run before any application code), so no
pre-existing handler is modelled and the delegating `originalOnerror`
branches delegate to nothing. -/

/-- A fault carried on a global channel: the event message and the
`Error` object's stack text. -/
structure Fault where
  message : String
  stackStr : String
deriving DecidableEq

/-- The `Error` instance delivered as `event.error` / `event.reason`:
`message`, `stack`, and `name = "Error"`. -/
def Fault.toVal (f : Fault) : JSVal :=
  .err (.str f.message) (.str f.stackStr) (.str "Error")

/-- What one listener does with a fault. -/
structure HandlerEffect where
  prevent : Bool
  stopImm : Bool
  out : List String
deriving DecidableEq

/-- The observable outcome of delivering a fault on a channel. -/
structure Outcome where
  defaultPrevented : Bool
  consoleOut : List String
deriving DecidableEq

/-- Run the listeners in order; `stopImmediatePropagation` skips the
rest.  Returns whether the default was prevented and the lines emitted. -/
def runListeners : List (Fault → HandlerEffect) → Fault → Bool × List String
  | [], _ => (false, [])
  | h :: rest, f =>
    let e := h f
    if e.stopImm then (e.prevent, e.out)
    else
      let r := runListeners rest f
      (e.prevent || r.1, e.out ++ r.2)

/-- Deliver a fault: run the listeners, then the default action (the
browser's console report) unless prevented. -/
def dispatch (ls : List (Fault → HandlerEffect)) (defaultOut : Fault → List String)
    (f : Fault) : Outcome :=
  let r := runListeners ls f
  if r.1 then { defaultPrevented := true, consoleOut := r.2 }
  else { defaultPrevented := false, consoleOut := r.2 ++ defaultOut f }

/-- The browser's default handling of an unprevented fault: report it. -/
def browserReport (f : Fault) : List String :=
  [f.message]

/-- A channel with no guard installed: default handling only. -/
def baselineChannel (f : Fault) : Outcome :=
  dispatch [] browserReport f

namespace Rof

/-- The classification used by `setupGlobalErrorHandler`'s listeners:
`isResizeObserverError(event.message) ||
isResizeObserverErrorObj(event.error)`.  On the `Error`-shaped events of
the channel the object classifier never throws (its `name` is the string
`"Error"`), so unwrapping the `Except` with a default is exact. -/
def eventBenign (f : Fault) : Bool :=
  isResizeObserverError f.message
    || ((isResizeObserverErrorObj f.toVal).toOption.getD false)

/-- The capture-phase `error` listener (lines 170–185): benign faults are
fully absorbed (`preventDefault`, `stopImmediatePropagation`, silence). -/
def captureErrorListener (f : Fault) : HandlerEffect :=
  if eventBenign f then { prevent := true, stopImm := true, out := [] }
  else { prevent := false, stopImm := false, out := [] }

/-- The `window.onerror` wrapper (lines 201–214) on a fresh window: a
benign fault is suppressed with a `console.debug` diagnostic (and
`console.debug` is *not* among the methods `suppressConsoleErrors`
wraps); anything else falls through to the absent original handler. -/
def onerrorHandler (f : Fault) : HandlerEffect :=
  if eventBenign f then
    { prevent := true, stopImm := false,
      out := ["Window.onerror ResizeObserver error suppressed:"] }
  else { prevent := false, stopImm := false, out := [] }

/-- The `error` channel after `setupGlobalErrorHandler`: the capture
listener was registered first, the `onerror` slot filled afterwards. -/
def errorChannel (f : Fault) : Outcome :=
  dispatch [captureErrorListener, onerrorHandler] browserReport f

/-- The classification of a rejection: `isResizeObserverErrorObj(event.reason)`. -/
def rejBenign (f : Fault) : Bool :=
  (isResizeObserverErrorObj f.toVal).toOption.getD false

/-- The capture-phase `unhandledrejection` listener (lines 188–198):
`preventDefault` only — it does *not* stop the remaining listeners. -/
def captureRejListener (f : Fault) : HandlerEffect :=
  if rejBenign f then { prevent := true, stopImm := false, out := [] }
  else { prevent := false, stopImm := false, out := [] }

/-- The `window.onunhandledrejection` wrapper (lines 217–230): a benign
rejection is suppressed with a `console.debug` diagnostic line. -/
def onRejHandler (f : Fault) : HandlerEffect :=
  if rejBenign f then
    { prevent := true, stopImm := false,
      out := ["Window.onunhandledrejection ResizeObserver error suppressed:"] }
  else { prevent := false, stopImm := false, out := [] }

/-- The `unhandledrejection` channel after `setupGlobalErrorHandler`. -/
def rejectionChannel (f : Fault) : Outcome :=
  dispatch [captureRejListener, onRejHandler] browserReport f

end Rof

namespace SimpleFix

/-- The classification of the `part_002` listeners:
`isResizeObserverMessage(e.message) || isResizeObserverMessage(e.error)`. -/
def eventBenign (f : Fault) : Bool :=
  isResizeObserverMessage (.str f.message) || isResizeObserverMessage f.toVal

/-- The capture-phase `error` listener (`part_002` lines 29–34). -/
def captureErrorListener (f : Fault) : HandlerEffect :=
  if eventBenign f then { prevent := true, stopImm := true, out := [] }
  else { prevent := false, stopImm := false, out := [] }

/-- `window.onerror` (`part_002` lines 40–43): `return true` for benign,
`return false` otherwise (no delegation; the module runs first, so there
is no handler to clobber). -/
def onerrorHandler (f : Fault) : HandlerEffect :=
  if isResizeObserverMessage f.toVal || isResizeObserverMessage (.str f.message) then
    { prevent := true, stopImm := false, out := [] }
  else { prevent := false, stopImm := false, out := [] }

/-- The `error` channel after the `part_002` IIFE. -/
def errorChannel (f : Fault) : Outcome :=
  dispatch [captureErrorListener, onerrorHandler] browserReport f

/-- The capture-phase `unhandledrejection` listener (`part_002` lines
36–38). -/
def captureRejListener (f : Fault) : HandlerEffect :=
  if isResizeObserverMessage f.toVal then
    { prevent := true, stopImm := false, out := [] }
  else { prevent := false, stopImm := false, out := [] }

/-- The `unhandledrejection` channel after the `part_002` IIFE (the
module assigns no `onunhandledrejection` handler). -/
def rejectionChannel (f : Fault) : Outcome :=
  dispatch [captureRejListener] browserReport f

end SimpleFix

/-- C5 (counterexample): after `resizeObserverFix.ts` installs its global
handler, a benign resize fault delivered as an unhandled rejection *does*
produce console output: default handling is prevented, but the
`onunhandledrejection` wrapper emits its `console.debug` diagnostic — and
`console.debug` is not among the methods that module silences. -/
theorem c5_counterexample :
    Rof.rejectionChannel
        ⟨"ResizeObserver loop completed with undelivered notifications.", ""⟩
      = { defaultPrevented := true,
          consoleOut := ["Window.onunhandledrejection ResizeObserver error suppressed:"] }
      ∧ Rof.rejBenign
          ⟨"ResizeObserver loop completed with undelivered notifications.", ""⟩ = true := by
  decide

/-- C5 (amended): after installation, on the `error`-event channel a
fault classified benign is fully absorbed — no default handling, no
console output — and any other fault receives exactly the baseline
default handling and output; the same holds on both `part_002` channels.
On `resizeObserverFix.ts`'s `unhandledrejection` channel, however, a
benign fault is prevented from default handling but its handler emits one
`console.debug` diagnostic line (silenced only if the universal
console-silencing layer is also installed). -/
theorem c5_channel_containment (f : Fault) :
    (Rof.errorChannel f =
        if Rof.eventBenign f then { defaultPrevented := true, consoleOut := [] }
        else baselineChannel f)
      ∧ (Rof.rejectionChannel f =
        if Rof.rejBenign f then
          { defaultPrevented := true,
            consoleOut := ["Window.onunhandledrejection ResizeObserver error suppressed:"] }
        else baselineChannel f)
      ∧ (SimpleFix.errorChannel f =
        if SimpleFix.eventBenign f then { defaultPrevented := true, consoleOut := [] }
        else baselineChannel f)
      ∧ (SimpleFix.rejectionChannel f =
        if SimpleFix.isResizeObserverMessage f.toVal then
          { defaultPrevented := true, consoleOut := [] }
        else baselineChannel f) := by
  refine ⟨?_, ?_, ?_, ?_⟩
  · cases h : Rof.eventBenign f <;>
      simp [Rof.errorChannel, dispatch, runListeners, Rof.captureErrorListener,
        Rof.onerrorHandler, baselineChannel, browserReport, h]
  · cases h : Rof.rejBenign f <;>
      simp [Rof.rejectionChannel, dispatch, runListeners, Rof.captureRejListener,
        Rof.onRejHandler, baselineChannel, browserReport, h]
  · cases h : SimpleFix.eventBenign f <;>
      simp_all [SimpleFix.errorChannel, dispatch, runListeners,
        SimpleFix.captureErrorListener, SimpleFix.onerrorHandler,
        SimpleFix.eventBenign, baselineChannel, browserReport,
        Bool.or_comm]
  · cases h : SimpleFix.isResizeObserverMessage f.toVal <;>
      simp [SimpleFix.rejectionChannel, dispatch, runListeners,
        SimpleFix.captureRejListener, baselineChannel, browserReport, h]
